import Mathlib

/-!
Shallow embedding of the Gonagri backend request pipeline
(Express + Zod + pg), covering:

* the error taxonomy of `src/utils/ApiError.ts`;
* the terminal error middleware of `src/middlewares/error.middleware.ts`;
* the validation middleware of `src/middlewares/validate.middleware.ts`
  together with the two Zod schemas (`subscribeSchema` of
  `src/routes/waitlist.routes.ts`, `contactSchema` of
  `src/routes/contact.routes.ts`);
* the data-access layer (`src/models/subscriber.model.ts`,
  `src/models/contact.model.ts`) over an explicit table state, with the
  `UNIQUE (email)` constraint of the `subscribers` table;
* the CORS middleware of `src/middlewares/cors.middleware.ts`;
* the startup connection test of `src/config/db.ts`.

JS strings are Lean `String`s (all inputs of interest are ASCII, where
JS UTF-16 length and Lean char length agree); timestamps are `Nat`;
fallible code returns `Except`; the mutable table behind the pool is
passed explicitly.
-/

namespace Gonagri

/-- An instance of the `ApiError` class of `src/utils/ApiError.ts`:
`message`, `statusCode`, `code`. -/
structure ApiError where
  message : String
  statusCode : Nat
  code : String
deriving DecidableEq

/-- Constructor of `ValidationError` (`super(message, 400, 'VALIDATION_ERROR')`). -/
def ValidationError (message : String) : ApiError :=
  ⟨message, 400, "VALIDATION_ERROR"⟩

/-- Constructor of `NotFoundError` (`super(message, 404, 'NOT_FOUND')`). -/
def NotFoundError (message : String) : ApiError :=
  ⟨message, 404, "NOT_FOUND"⟩

/-- Constructor of `ConflictError` (`super(message, 409, 'CONFLICT')`). -/
def ConflictError (message : String) : ApiError :=
  ⟨message, 409, "CONFLICT"⟩

/-- Constructor of `UnauthorizedError` (`super(message, 401, 'UNAUTHORIZED')`). -/
def UnauthorizedError (message : String) : ApiError :=
  ⟨message, 401, "UNAUTHORIZED"⟩

/-- A JS error value as the middleware sees it: either an instance of the
`ApiError` class (the `instanceof` branch) or any other thrown value.
`stack` models the `err.stack` property every JS `Error` carries. -/
inductive JsError where
  | api (e : ApiError) (stack : String)
  | other (message : String) (stack : String)
deriving DecidableEq

/-- The JSON body built by the error middleware:
`\x7bsuccess:false, error:\x7bcode, message\x7d, ...(stack?)\x7d`. -/
structure ErrorBody where
  success : Bool
  code : String
  message : String
  stack : Option String
deriving DecidableEq

/-- The terminal error middleware `errorHandler` of
`src/middlewares/error.middleware.ts`: defaults
`(500, 'INTERNAL_ERROR', 'Internal Server Error')`, overridden by the
fields of an `ApiError` instance; the stack is spread into the body
exactly when `NODE_ENV === 'development'`.  Returns the
`(statusCode, body)` of the single response it sends. -/
def errorHandler (nodeEnv : String) (err : JsError) : Nat × ErrorBody :=
  match err with
  | JsError.api e st =>
      (e.statusCode,
       ⟨false, e.code, e.message, if nodeEnv == "development" then some st else none⟩)
  | JsError.other _ st =>
      (500,
       ⟨false, "INTERNAL_ERROR", "Internal Server Error",
        if nodeEnv == "development" then some st else none⟩)

/-- The closed set of error shapes this repository raises or lets
propagate to the error middleware: `ValidationError` (validate
middleware), `ConflictError` (subscriber model), `NotFoundError` and
`UnauthorizedError` (declared in `ApiError.ts`), and non-`ApiError`
errors (driver failures, body-parse failures, unexpected exceptions).
No caller ever constructs a bare `ApiError`. -/
inductive ProgramError where
  | validation (message stack : String)
  | conflict (message stack : String)
  | notFound (message stack : String)
  | unauthorized (message stack : String)
  | nonApi (message stack : String)
deriving DecidableEq

/-- How each program error reaches the middleware as a JS value. -/
def ProgramError.toJsError : ProgramError → JsError
  | ProgramError.validation m st => JsError.api (ValidationError m) st
  | ProgramError.conflict m st => JsError.api (ConflictError m) st
  | ProgramError.notFound m st => JsError.api (NotFoundError m) st
  | ProgramError.unauthorized m st => JsError.api (UnauthorizedError m) st
  | ProgramError.nonApi m st => JsError.other m st

/-! ### Zod string schemas

Zod processes a string schema's chain of checks/transforms strictly in
declaration order, threading the current value: `min`/`max`/`email`
test the current value and record an issue, `trim`/`toLowerCase`
replace the current value.  Parsing succeeds iff no issue was
recorded. -/

/-- One element of a Zod string chain. -/
inductive ZodCheck where
  | min (n : Nat) (msg : String)
  | max (n : Nat) (msg : String)
  | email (msg : String)
  | trim
  | toLower
deriving DecidableEq

/-- Characters Zod's email pattern admits in the local part
(alphanumerics, `_`, apostrophe (code 39), `+`, `-`, `.`). -/
def isLocalChar (c : Char) : Bool :=
  c.isAlpha || c.isDigit || c == '_' || c.toNat == 39 || c == '+' || c == '-' || c == '.'

/-- Characters admitted as the last character of the local part
(no dot, no apostrophe). -/
def isLocalEnd (c : Char) : Bool :=
  c.isAlpha || c.isDigit || c == '_' || c == '+' || c == '-'

/-- No two consecutive dots anywhere (Zod's negative lookahead). -/
def noDoubleDot : List Char → Bool
  | [] => true
  | [_] => true
  | a :: b :: rest => !(a == '.' && b == '.') && noDoubleDot (b :: rest)

/-- Split a character list at a separator character (the analogue of
`String.prototype.split` with a one-character separator). -/
def splitOnChar (sep : Char) : List Char → List (List Char)
  | [] => [[]]
  | c :: rest =>
      let r := splitOnChar sep rest
      if c == sep then [] :: r
      else
        match r with
        | [] => [[c]]
        | h :: t => (c :: h) :: t

/-- A domain label: leading alphanumeric, then alphanumerics or `-`. -/
def isDomainLabel : List Char → Bool
  | [] => false
  | c :: rest => (c.isAlpha || c.isDigit) && rest.all (fun d => d.isAlpha || d.isDigit || d == '-')

/-- A top-level domain: at least two letters. -/
def isTld (l : List Char) : Bool :=
  decide (2 ≤ l.length) && l.all Char.isAlpha

/-- Zod's `.email()` pattern: no leading dot, no `..` anywhere, a
non-empty local part of admitted characters ending in a non-dot
character, one `@`, then one or more dot-separated labels finishing
with an alphabetic TLD of length at least 2. -/
def zodEmailValid (s : String) : Bool :=
  (match s.data with
   | [] => false
   | c :: _ => !(c == '.')) &&
  noDoubleDot s.data &&
  (match splitOnChar '@' s.data with
   | [lp, dom] =>
       (!lp.isEmpty && lp.all isLocalChar &&
         (match lp.getLast? with
          | some c => isLocalEnd c
          | none => false)) &&
       (let parts := splitOnChar '.' dom
        decide (2 ≤ parts.length) && parts.dropLast.all isDomainLabel &&
          (match parts.getLast? with
           | some t => isTld t
           | none => false))
   | _ => false)

/-- ASCII whitespace as trimmed by `String.prototype.trim` on the
inputs of interest. -/
def isJsSpace (c : Char) : Bool :=
  c == ' ' || c == '\t' || c == '\n' || c == '\r'

/-- `String.prototype.trim`: strip whitespace from both ends. -/
def jsTrim (s : String) : String :=
  ⟨((s.data.dropWhile isJsSpace).reverse.dropWhile isJsSpace).reverse⟩

/-- `String.prototype.toLowerCase` on the ASCII inputs of interest. -/
def jsToLower (s : String) : String :=
  ⟨s.data.map Char.toLower⟩

/-- Run a Zod chain in declaration order on a string value, returning
the final (possibly transformed) value and the issue messages in the
order the checks raised them. -/
def runChecks : List ZodCheck → String → String × List String
  | [], s => (s, [])
  | ZodCheck.min n msg :: rest, s =>
      let r := runChecks rest s
      (r.1, (if s.length < n then [msg] else []) ++ r.2)
  | ZodCheck.max n msg :: rest, s =>
      let r := runChecks rest s
      (r.1, (if n < s.length then [msg] else []) ++ r.2)
  | ZodCheck.email msg :: rest, s =>
      let r := runChecks rest s
      (r.1, (if zodEmailValid s then [] else [msg]) ++ r.2)
  | ZodCheck.trim :: rest, s => runChecks rest (jsTrim s)
  | ZodCheck.toLower :: rest, s => runChecks rest (jsToLower s)

/-- One Zod issue (we track only its `message`). -/
structure ZodIssue where
  message : String
deriving DecidableEq

/-- The value caught by `validateRequest`'s `catch`: a JS exception on
which `error.errors` may be absent (`none`) or hold the issue list. -/
structure Thrown where
  errors : Option (List ZodIssue)
deriving DecidableEq

/-- Parse one object field: a missing key yields Zod's `Required`
invalid-type issue; a present string runs the chain. -/
def parseField (checks : List ZodCheck) : Option String → String × List String
  | none => ("", ["Required"])
  | some s => runChecks checks s

/-- The chain of `subscribeSchema.email` in `waitlist.routes.ts`:
`z.string().email('Invalid email format')` — no lowercasing. -/
def subscribeSchemaChecks : List ZodCheck :=
  [ZodCheck.email "Invalid email format"]

/-- The request body of `POST /v1/waitlist/` (string field or absent). -/
structure WaitlistBody where
  email : Option String
deriving DecidableEq

/-- `subscribeSchema.parse` on a waitlist body. -/
def subscribeParse (b : WaitlistBody) : Except Thrown WaitlistBody :=
  let r := parseField subscribeSchemaChecks b.email
  if r.2.isEmpty then Except.ok ⟨some r.1⟩
  else Except.error ⟨some (r.2.map ZodIssue.mk)⟩

/-- The chain of `contactSchema.name`:
`z.string().min(1,'Name is required').max(100,'Name must be 100 characters or less').trim()`. -/
def nameChecks : List ZodCheck :=
  [ZodCheck.min 1 "Name is required",
   ZodCheck.max 100 "Name must be 100 characters or less",
   ZodCheck.trim]

/-- The chain of `contactSchema.email`:
`z.string().min(1,'Email is required').email('Invalid email format').toLowerCase()`. -/
def emailChecks : List ZodCheck :=
  [ZodCheck.min 1 "Email is required",
   ZodCheck.email "Invalid email format",
   ZodCheck.toLower]

/-- The chain of `contactSchema.message`:
`z.string().min(1,'Message is required').max(5000,'Message must be 5000 characters or less').trim()`. -/
def messageChecks : List ZodCheck :=
  [ZodCheck.min 1 "Message is required",
   ZodCheck.max 5000 "Message must be 5000 characters or less",
   ZodCheck.trim]

/-- The request body of `POST /v1/contact/`. -/
structure ContactBody where
  name : Option String
  email : Option String
  message : Option String
deriving DecidableEq

/-- `contactSchema.parse` on a contact body: fields processed in shape
order (`name`, `email`, `message`), issues concatenated in that order. -/
def contactParse (b : ContactBody) : Except Thrown ContactBody :=
  let rn := parseField nameChecks b.name
  let re := parseField emailChecks b.email
  let rm := parseField messageChecks b.message
  let issues := rn.2 ++ re.2 ++ rm.2
  if issues.isEmpty then Except.ok ⟨some rn.1, some re.1, some rm.1⟩
  else Except.error ⟨some (issues.map ZodIssue.mk)⟩

/-- An Express request, reduced to the mutable `body` the middleware
reads and writes. -/
structure Req (β : Type) where
  body : β
deriving DecidableEq

/-- What the validation middleware passes on: `next()` or `next(err)`
with an `ApiError`. -/
inductive Outcome where
  | next
  | nextError (e : ApiError)
deriving DecidableEq

/-- JS `||` on strings: the empty string is falsy. -/
def jsStringOr (s d : String) : String :=
  if s == "" then d else s

/-- `error.errors?.[0]?.message || 'Validation failed'`. -/
def firstIssueMessage (t : Thrown) : String :=
  match t.errors with
  | some (i :: _) => jsStringOr i.message "Validation failed"
  | _ => "Validation failed"

/-- `validateRequest(schema)` of `src/middlewares/validate.middleware.ts`:
on successful parse it overwrites `req.body` with the validated value
and calls `next()`; on any thrown value it leaves the request untouched
and forwards `new ValidationError(...)`. -/
def validateRequest {β : Type} (parse : β → Except Thrown β) (req : Req β) :
    Req β × Outcome :=
  match parse req.body with
  | Except.ok v => (⟨v⟩, Outcome.next)
  | Except.error t => (req, Outcome.nextError (ValidationError (firstIssueMessage t)))

/-! ### Data-access layer over an explicit store -/

/-- A row of the `subscribers` table. -/
structure SubscriberRow where
  id : Nat
  email : String
  created_at : Nat
deriving DecidableEq

/-- The `subscribers` table with its serial sequence. -/
structure SubscribersTable where
  rows : List SubscriberRow
  nextId : Nat
deriving DecidableEq

/-- A pg driver error, identified by its SQLSTATE `code`. -/
structure PgError where
  code : String
deriving DecidableEq

/-- `INSERT INTO subscribers (email) VALUES ($1) RETURNING ...` under
the `UNIQUE` constraint on `email` (exact `varchar` equality):
a duplicate raises SQLSTATE `23505`. -/
def insertSubscriber (t : SubscribersTable) (email : String) (now : Nat) :
    Except PgError (SubscriberRow × SubscribersTable) :=
  if t.rows.any (fun r => r.email == email) then Except.error ⟨"23505"⟩
  else
    let row : SubscriberRow := ⟨t.nextId, email, now⟩
    Except.ok (row, ⟨t.rows ++ [row], t.nextId + 1⟩)

/-- An error leaving the data-access layer: a domain `ApiError` or an
untouched driver error. -/
inductive ModelError where
  | api (e : ApiError)
  | pg (e : PgError)
deriving DecidableEq

/-- The `catch` block of `addSubscriber` in
`src/models/subscriber.model.ts`: `error.code === '23505'` becomes
`ConflictError('Email is already subscribed to the waitlist')`; every
other store failure is re-thrown unchanged. -/
def addSubscriberCatch {α : Type} (result : Except PgError α) : Except ModelError α :=
  match result with
  | Except.ok r => Except.ok r
  | Except.error e =>
      if e.code == "23505" then
        Except.error (ModelError.api (ConflictError "Email is already subscribed to the waitlist"))
      else Except.error (ModelError.pg e)

/-- `addSubscriber(email)`: the insert wrapped in its catch block. -/
def addSubscriber (t : SubscribersTable) (email : String) (now : Nat) :
    Except ModelError (SubscriberRow × SubscribersTable) :=
  addSubscriberCatch (insertSubscriber t email now)

/-- How a model error reaches the error middleware: domain errors are
`ApiError` instances, driver errors are not (the `instanceof` test
fails on them). -/
def ModelError.toJsError : ModelError → JsError
  | ModelError.api e => JsError.api e ""
  | ModelError.pg e => JsError.other e.code ""

/-- A wire response of the waitlist route: the 201 success envelope
with the created row, or the error envelope from the error middleware. -/
inductive WireResponse where
  | success (status : Nat) (row : SubscriberRow)
  | failure (status : Nat) (body : ErrorBody)
deriving DecidableEq

/-- An empty `subscribers` table (serial starts at 1). -/
def emptySubscribers : SubscribersTable := ⟨[], 1⟩

/-- `POST /v1/waitlist/` as wired in `app.ts`: `validateRequest
(subscribeSchema)`, then the controller `subscribeToWaitlist`, which
destructures `email` from the validated body, calls `addSubscriber`,
answers `201 \x7bsuccess:true, data:subscriber\x7d`, and forwards any
error to `errorHandler`. -/
def handleWaitlistPost (nodeEnv : String) (t : SubscribersTable)
    (b : WaitlistBody) (now : Nat) : WireResponse × SubscribersTable :=
  match validateRequest subscribeParse (⟨b⟩ : Req WaitlistBody) with
  | (_, Outcome.nextError e) =>
      let r := errorHandler nodeEnv (JsError.api e "")
      (WireResponse.failure r.1 r.2, t)
  | (req2, Outcome.next) =>
      match addSubscriber t (req2.body.email.getD "") now with
      | Except.ok (row, t2) => (WireResponse.success 201 row, t2)
      | Except.error me =>
          let r := errorHandler nodeEnv me.toJsError
          (WireResponse.failure r.1 r.2, t)

/-- A row of the `contact_messages` table. -/
structure ContactRow where
  id : Nat
  name : String
  email : String
  message : String
  created_at : Nat
deriving DecidableEq

/-- `INSERT INTO contact_messages (name, email, message) VALUES
($1,$2,$3) RETURNING ...` — no uniqueness constraint. -/
def insertContactMessage (rows : List ContactRow) (nextId : Nat)
    (name email message : String) (now : Nat) : ContactRow × List ContactRow :=
  let row : ContactRow := ⟨nextId, name, email, message, now⟩
  (row, rows ++ [row])

/-- A wire response of the contact route. -/
inductive ContactWire where
  | created (status : Nat) (row : ContactRow)
  | failure (status : Nat) (body : ErrorBody)
deriving DecidableEq

/-- `POST /v1/contact/` as wired in `app.ts`: `validateRequest
(contactSchema)`, then `submitContactMessage`, which destructures the
validated fields, calls `addContactMessage` and answers 201. -/
def handleContactPost (nodeEnv : String) (rows : List ContactRow) (nextId : Nat)
    (b : ContactBody) (now : Nat) : ContactWire × List ContactRow :=
  match validateRequest contactParse (⟨b⟩ : Req ContactBody) with
  | (_, Outcome.nextError e) =>
      let r := errorHandler nodeEnv (JsError.api e "")
      (ContactWire.failure r.1 r.2, rows)
  | (req2, Outcome.next) =>
      let res := insertContactMessage rows nextId (req2.body.name.getD "")
        (req2.body.email.getD "") (req2.body.message.getD "") now
      (ContactWire.created 201 res.1, res.2)

/-! ### List queries: `ORDER BY created_at DESC LIMIT $ OFFSET $` -/

/-- `ORDER BY created_at DESC`, modeled as a sort with respect to the
descending-key relation. -/
def sortByKeyDesc {α : Type} (key : α → Nat) (l : List α) : List α :=
  l.insertionSort (fun a b => key b ≤ key a)

/-- `getAllSubscribers(limit = 100, offset = 0)` of
`src/models/subscriber.model.ts`: omitted arguments take the JS
defaults; SQL applies `OFFSET` then `LIMIT` to the ordered rows. -/
def getAllSubscribers (t : SubscribersTable) (limit offset : Option Nat) :
    List SubscriberRow :=
  ((sortByKeyDesc SubscriberRow.created_at t.rows).drop (offset.getD 0)).take (limit.getD 100)

/-- `getMessagesByEmail(email, limit = 50)` of
`src/models/contact.model.ts`: `WHERE email = $1 ORDER BY created_at
DESC LIMIT $2`. -/
def getMessagesByEmail (rows : List ContactRow) (email : String)
    (limit : Option Nat) : List ContactRow :=
  (sortByKeyDesc ContactRow.created_at (rows.filter (fun r => r.email == email))).take
    (limit.getD 50)

instance instIsTotalKeyDesc {α : Type} (key : α → Nat) :
    IsTotal α (fun a b => key b ≤ key a) :=
  ⟨fun a b => (Nat.le_total (key b) (key a)).imp id id⟩

instance instIsTransKeyDesc {α : Type} (key : α → Nat) :
    IsTrans α (fun a b => key b ≤ key a) :=
  ⟨fun _ _ _ hab hbc => Nat.le_trans hbc hab⟩

/-! ### CORS middleware -/

/-- The four headers `cors.middleware.ts` may attach. -/
structure CorsHeaders where
  allowOrigin : Option String
  allowMethods : Option String
  allowHeaders : Option String
  maxAge : Option String
deriving DecidableEq

/-- No CORS headers attached. -/
def emptyCorsHeaders : CorsHeaders := ⟨none, none, none, none⟩

/-- The permissive headers attached on an exact origin match. -/
def fullCorsHeaders (o : String) : CorsHeaders :=
  ⟨some o, some "GET, POST, PUT, DELETE, OPTIONS",
   some "Content-Type, Authorization", some "3600"⟩

/-- What the CORS stage does with a request: `res.sendStatus(200)` on
preflight, or fall through to the next stage; either way carrying the
headers set so far. -/
inductive CorsStep where
  | shortCircuit (status : Nat) (headers : CorsHeaders)
  | forward (headers : CorsHeaders)
deriving DecidableEq

/-- The headers a CORS step carries. -/
def CorsStep.headers : CorsStep → CorsHeaders
  | CorsStep.shortCircuit _ h => h
  | CorsStep.forward h => h

/-- Whether the CORS stage terminated the request. -/
def CorsStep.isShortCircuit : CorsStep → Bool
  | CorsStep.shortCircuit _ _ => true
  | CorsStep.forward _ => false

/-- The status of a short-circuit, if any. -/
def CorsStep.status? : CorsStep → Option Nat
  | CorsStep.shortCircuit s _ => some s
  | CorsStep.forward _ => none

/-- The `cors` middleware of `src/middlewares/cors.middleware.ts`:
attach the permissive headers iff `req.headers.origin === CORS_ORIGIN`;
then every `OPTIONS` request is answered `200` immediately, any other
method falls through. -/
def corsMiddleware (corsOrigin : String) (origin : Option String)
    (method : String) : CorsStep :=
  let headers :=
    if origin == some corsOrigin then fullCorsHeaders corsOrigin else emptyCorsHeaders
  if method == "OPTIONS" then CorsStep.shortCircuit 200 headers
  else CorsStep.forward headers

/-! ### Startup connection test (`src/config/db.ts`) -/

/-- The message `testConnection` rejects with after its last attempt. -/
def connectionFailureMessage : String :=
  "[DB] Failed to connect to database after retries"

/-- The warning the bootstrap logs when it swallows the rejection. -/
def dbWarning : String := "[DB] Server running without database connection"

/-- The retry loop of `testConnection(retries, delay)`: attempt `i`
succeeds iff `attempt i`; a failure with attempts remaining sleeps
`delay` and retries, a failure on the last iteration throws; with the
loop exhausted (only possible for `retries = 0`) the promise resolves. -/
def testConnectionAux (attempt : Nat → Bool) : Nat → Nat → Except String Unit
  | _, 0 => Except.ok ()
  | i, Nat.succ rem =>
      if attempt i then Except.ok ()
      else if rem == 0 then Except.error connectionFailureMessage
      else testConnectionAux attempt (i + 1) rem

/-- `testConnection` with a configurable retry count (`delay` spaces
the attempts in time and does not affect the outcome). -/
def testConnection (attempt : Nat → Bool) (retries : Nat) : Except String Unit :=
  testConnectionAux attempt 0 retries

/-- How the process ends up serving traffic after the bootstrap. -/
inductive StartupOutcome where
  | servingVerified
  | servingWithoutStore (warning : String)
deriving DecidableEq

/-- The module-level bootstrap at the bottom of `src/config/db.ts`:
`initializePool().then(p => \x7b testConnection(5, 2000).catch(warn);
return p \x7d).catch(warn-and-rethrow)`.  Both failure paths only log a
warning; `server.ts` binds the listener regardless, so the process
serves traffic in every case. -/
def startupBootstrap (initOk : Bool) (attempt : Nat → Bool) : StartupOutcome :=
  if initOk then
    match testConnection attempt 5 with
    | Except.ok _ => StartupOutcome.servingVerified
    | Except.error _ => StartupOutcome.servingWithoutStore dbWarning
  else StartupOutcome.servingWithoutStore dbWarning

/-! ## Theorems -/

/-- Helper: when every connection attempt fails, the retry loop of
`testConnection` ends in its rejection, for any positive retry count
and any start index. -/
theorem testConnectionAux_all_fail (attempt : Nat → Bool)
    (h : ∀ i, attempt i = false) :
    ∀ rem i, 1 ≤ rem →
      testConnectionAux attempt i rem = Except.error connectionFailureMessage := by
  intro rem
  induction rem with
  | zero => intro i hr; omega
  | succ n ih =>
      intro i _
      unfold testConnectionAux
      rw [h i]
      cases n with
      | zero => simp
      | succ m => simpa using ih (i + 1) (by omega)

/-- Helper: the sort modeling `ORDER BY created_at DESC` is pairwise
descending in the key. -/
theorem sortByKeyDesc_pairwise {α : Type} (key : α → Nat) (l : List α) :
    (sortByKeyDesc key l).Pairwise (fun a b => key b ≤ key a) :=
  List.sorted_insertionSort _ l

/-- Helper: the sort is a permutation of its input. -/
theorem sortByKeyDesc_perm {α : Type} (key : α → Nat) (l : List α) :
    (sortByKeyDesc key l).Perm l :=
  List.perm_insertionSort _ l

/-- C1: the code evaluated at the claim's scenario.  `POST /v1/waitlist/`
with body email `USER@Example.com` does answer 201 and the identical
repeat does answer 409 `CONFLICT`, but the returned and stored email is
`USER@Example.com` — `subscribeSchema` has no lowercasing, so
`data.email` is not `user@example.com` as the claim requires; the
lowercased form of the same address then inserts a second row.  The
repository's own documentation ("Auto-lowercase emails") and the
lowercasing on the contact schema show the claim is the intent and the
waitlist schema the slip. -/
theorem C1_waitlist_not_lowercased_evaluation :
    (handleWaitlistPost "production" emptySubscribers ⟨some "USER@Example.com"⟩ 0).1
      = WireResponse.success 201 ⟨1, "USER@Example.com", 0⟩
    ∧ (handleWaitlistPost "production"
         (handleWaitlistPost "production" emptySubscribers ⟨some "USER@Example.com"⟩ 0).2
         ⟨some "USER@Example.com"⟩ 1).1
      = WireResponse.failure 409
          ⟨false, "CONFLICT", "Email is already subscribed to the waitlist", none⟩
    ∧ (handleWaitlistPost "production"
         (handleWaitlistPost "production" emptySubscribers ⟨some "USER@Example.com"⟩ 0).2
         ⟨some "user@example.com"⟩ 1).1
      = WireResponse.success 201 ⟨2, "user@example.com", 1⟩ :=
  ⟨rfl, rfl, rfl⟩

/-- C2 counterexample: with every connection attempt failing, the
bootstrap of `src/config/db.ts` does not abort startup — it swallows
the rejection of `testConnection(5, 2000)`, logs the warning and the
process keeps serving traffic against the unverified store, refuting
"if every retry attempt fails, startup fails fatally". -/
theorem C2_counterexample_serves_without_store :
    startupBootstrap true (fun _ => false)
      = StartupOutcome.servingWithoutStore dbWarning := rfl

/-- C2 amended: `testConnection` attempts connections with a
configurable retry count and a delay between attempts, and rejects
after every attempt failed; but the startup bootstrap catches that
rejection and only logs a warning, so the process continues to serve
traffic without a verified store. -/
theorem C2_retry_then_warn (attempt : Nat → Bool) (retries : Nat)
    (hfail : ∀ i, attempt i = false) (hr : 1 ≤ retries) :
    testConnection attempt retries = Except.error connectionFailureMessage
    ∧ startupBootstrap true attempt = StartupOutcome.servingWithoutStore dbWarning := by
  have h5 := testConnectionAux_all_fail attempt hfail 5 0 (by omega)
  refine ⟨testConnectionAux_all_fail attempt hfail retries 0 hr, ?_⟩
  simp [startupBootstrap, testConnection, h5]

/-- C2 witness: the amended statement at the all-failing oracle with
the default retry count 3. -/
theorem C2_retry_then_warn_witness :
    testConnection (fun _ => false) 3 = Except.error connectionFailureMessage
    ∧ startupBootstrap true (fun _ => false)
        = StartupOutcome.servingWithoutStore dbWarning :=
  C2_retry_then_warn (fun _ => false) 3 (fun _ => rfl) (by omega)

/-- C3: for every error value this program can send to the terminal
middleware, `errorHandler` (a total function — it never re-throws)
produces exactly one `success:false` envelope, mapping
`ValidationError` to 400/`VALIDATION_ERROR`, `ConflictError` to
409/`CONFLICT`, `NotFoundError` to 404/`NOT_FOUND`,
`UnauthorizedError` to 401/`UNAUTHORIZED`, and any non-`ApiError`
value to 500/`INTERNAL_ERROR` with the generic message `Internal
Server Error`, never the underlying error's own text. -/
theorem C3_error_middleware_taxonomy (nodeEnv : String) (e : ProgramError) :
    (errorHandler nodeEnv e.toJsError).2.success = false
    ∧ (match e with
       | ProgramError.validation _ _ =>
           (errorHandler nodeEnv e.toJsError).1 = 400
           ∧ (errorHandler nodeEnv e.toJsError).2.code = "VALIDATION_ERROR"
       | ProgramError.conflict _ _ =>
           (errorHandler nodeEnv e.toJsError).1 = 409
           ∧ (errorHandler nodeEnv e.toJsError).2.code = "CONFLICT"
       | ProgramError.notFound _ _ =>
           (errorHandler nodeEnv e.toJsError).1 = 404
           ∧ (errorHandler nodeEnv e.toJsError).2.code = "NOT_FOUND"
       | ProgramError.unauthorized _ _ =>
           (errorHandler nodeEnv e.toJsError).1 = 401
           ∧ (errorHandler nodeEnv e.toJsError).2.code = "UNAUTHORIZED"
       | ProgramError.nonApi _ _ =>
           (errorHandler nodeEnv e.toJsError).1 = 500
           ∧ (errorHandler nodeEnv e.toJsError).2.code = "INTERNAL_ERROR"
           ∧ (errorHandler nodeEnv e.toJsError).2.message = "Internal Server Error") := by
  cases e <;>
    simp [errorHandler, ProgramError.toJsError, ValidationError, ConflictError,
      NotFoundError, UnauthorizedError]

/-- C4: the catch block of `addSubscriber` turns a store failure with
SQLSTATE `23505` (uniqueness violation on email) into the fixed
`ConflictError('Email is already subscribed to the waitlist')`
(409/`CONFLICT`), re-throws every other store failure unchanged, and a
duplicate email in the table does produce exactly that conflict. -/
theorem C4_conflict_and_propagation (e : PgError) :
    (e.code = "23505" →
       addSubscriberCatch (Except.error e : Except PgError (SubscriberRow × SubscribersTable))
         = Except.error (ModelError.api (ConflictError "Email is already subscribed to the waitlist"))
       ∧ (ConflictError "Email is already subscribed to the waitlist").statusCode = 409
       ∧ (ConflictError "Email is already subscribed to the waitlist").code = "CONFLICT")
    ∧ (¬(e.code = "23505") →
       addSubscriberCatch (Except.error e : Except PgError (SubscriberRow × SubscribersTable))
         = Except.error (ModelError.pg e))
    ∧ (∀ (t : SubscribersTable) (email : String) (now : Nat),
        t.rows.any (fun r => r.email == email) = true →
        addSubscriber t email now
          = Except.error (ModelError.api (ConflictError "Email is already subscribed to the waitlist"))) := by
  refine ⟨?_, ?_, ?_⟩
  · intro h
    refine ⟨?_, rfl, rfl⟩
    simp [addSubscriberCatch, h]
  · intro h
    simp [addSubscriberCatch, h]
  · intro t email now hdup
    simp [addSubscriber, insertSubscriber, hdup, addSubscriberCatch]

/-- C4 witness: the catch block at a `23505` error and at a connection
failure (`08006`). -/
theorem C4_conflict_and_propagation_witness :
    addSubscriberCatch (Except.error ⟨"23505"⟩ : Except PgError (SubscriberRow × SubscribersTable))
      = Except.error (ModelError.api (ConflictError "Email is already subscribed to the waitlist"))
    ∧ addSubscriberCatch (Except.error ⟨"08006"⟩ : Except PgError (SubscriberRow × SubscribersTable))
      = Except.error (ModelError.pg ⟨"08006"⟩) :=
  ⟨((C4_conflict_and_propagation ⟨"23505"⟩).1 rfl).1,
   (C4_conflict_and_propagation ⟨"08006"⟩).2.1 (by decide)⟩

/-- C5: the code evaluated at the claim's failing inputs.
`contactSchema` chains `.min(1).max(100 | 5000).trim()`, so the bounds
are checked on the values BEFORE trimming: a message of one space
passes `min(1)` and is then trimmed, so the submission is accepted and
a row with an empty message is created — the claim (and the
repository's own documentation: message "trimmed, non-empty") says it
must be rejected with `VALIDATION_ERROR` before any row is created.
Symmetrically, a name of `a` followed by 100 spaces (1 character after
trimming) is rejected by `max(100)`. -/
theorem C5_bounds_checked_before_trim_evaluation :
    (handleContactPost "production" [] 1 ⟨some "Bob", some "a@b.com", some " "⟩ 0).1
      = ContactWire.created 201 ⟨1, "Bob", "a@b.com", "", 0⟩
    ∧ (handleContactPost "production" [] 1 ⟨some "Bob", some "a@b.com", some " "⟩ 0).2
      = [⟨1, "Bob", "a@b.com", "", 0⟩]
    ∧ (handleContactPost "production" [] 1
         ⟨some (String.mk ('a' :: List.replicate 100 ' ')), some "a@b.com", some "hi"⟩ 0).1
      = ContactWire.failure 400
          ⟨false, "VALIDATION_ERROR", "Name must be 100 characters or less", none⟩ :=
  ⟨rfl, rfl, rfl⟩

/-- C6: list queries return rows ordered by `created_at` descending;
the limit defaults to 100 (`getAllSubscribers`) and 50
(`getMessagesByEmail`, the narrower by-email listing) when the caller
omits it; and paging with `limit=1,offset=0` then `limit=1,offset=1`
over two rows with distinct timestamps returns exactly the two rows,
strictly newest-first, with no duplicates and no gaps. -/
theorem C6_order_defaults_pagination (t : SubscribersTable)
    (rows : List ContactRow) (email : String) (l o : Option Nat)
    (r1 r2 : SubscriberRow) :
    (getAllSubscribers t l o).Pairwise (fun a b => b.created_at ≤ a.created_at)
    ∧ (getMessagesByEmail rows email l).Pairwise (fun a b => b.created_at ≤ a.created_at)
    ∧ getAllSubscribers t none none = getAllSubscribers t (some 100) (some 0)
    ∧ getMessagesByEmail rows email none = getMessagesByEmail rows email (some 50)
    ∧ (¬(r1.created_at = r2.created_at) →
        (getAllSubscribers ⟨[r1, r2], 3⟩ (some 1) (some 0)
          ++ getAllSubscribers ⟨[r1, r2], 3⟩ (some 1) (some 1)).Perm [r1, r2]
        ∧ (getAllSubscribers ⟨[r1, r2], 3⟩ (some 1) (some 0)
            ++ getAllSubscribers ⟨[r1, r2], 3⟩ (some 1) (some 1)).Pairwise
            (fun a b => b.created_at < a.created_at)
        ∧ (getAllSubscribers ⟨[r1, r2], 3⟩ (some 1) (some 0)
            ++ getAllSubscribers ⟨[r1, r2], 3⟩ (some 1) (some 1)).Nodup) := by
  refine ⟨?_, ?_, rfl, rfl, ?_⟩
  · exact List.Pairwise.sublist
      ((List.take_sublist _ _).trans (List.drop_sublist _ _))
      (sortByKeyDesc_pairwise SubscriberRow.created_at t.rows)
  · exact List.Pairwise.sublist (List.take_sublist _ _)
      (sortByKeyDesc_pairwise ContactRow.created_at _)
  · intro hne
    have hr12 : ¬(r1 = r2) := fun h => hne (congrArg SubscriberRow.created_at h)
    by_cases hc : r2.created_at ≤ r1.created_at
    · have hlt : r2.created_at < r1.created_at :=
        Nat.lt_of_le_of_ne hc (fun h => hne h.symm)
      have hs : getAllSubscribers ⟨[r1, r2], 3⟩ (some 1) (some 0)
          ++ getAllSubscribers ⟨[r1, r2], 3⟩ (some 1) (some 1) = [r1, r2] := by
        simp [getAllSubscribers, sortByKeyDesc, hc]
      rw [hs]
      exact ⟨List.Perm.refl _, by simp [hlt], by simp [hr12]⟩
    · have hlt : r1.created_at < r2.created_at := Nat.lt_of_not_le hc
      have hs : getAllSubscribers ⟨[r1, r2], 3⟩ (some 1) (some 0)
          ++ getAllSubscribers ⟨[r1, r2], 3⟩ (some 1) (some 1) = [r2, r1] := by
        simp [getAllSubscribers, sortByKeyDesc, hc]
      rw [hs]
      refine ⟨List.Perm.swap _ _ _, by simp [hlt], ?_⟩
      simp only [List.nodup_cons, List.mem_singleton, List.not_mem_nil,
        not_false_iff, List.nodup_nil, and_true]
      exact fun h => hr12 h.symm

/-- C6 witness: the pagination clause at two concrete rows with
distinct timestamps. -/
theorem C6_order_defaults_pagination_witness :
    (getAllSubscribers ⟨[⟨1, "a@x.com", 10⟩, ⟨2, "b@x.com", 5⟩], 3⟩ (some 1) (some 0)
      ++ getAllSubscribers ⟨[⟨1, "a@x.com", 10⟩, ⟨2, "b@x.com", 5⟩], 3⟩ (some 1) (some 1)).Perm
      [⟨1, "a@x.com", 10⟩, ⟨2, "b@x.com", 5⟩] :=
  ((C6_order_defaults_pagination ⟨[], 1⟩ [] "" none none
    ⟨1, "a@x.com", 10⟩ ⟨2, "b@x.com", 5⟩).2.2.2.2 (by decide)).1

/-- C7: the CORS stage attaches the permissive headers iff the
request's Origin header exactly equals the configured value, and every
`OPTIONS` request short-circuits with a bare 200 whether or not the
origin matched; any other method falls through. -/
theorem C7_cors_exact_match_and_preflight (cfg : String) (origin : Option String)
    (method : String) :
    ((corsMiddleware cfg origin method).headers.allowOrigin.isSome = true
      ↔ origin = some cfg)
    ∧ (corsMiddleware cfg origin method).headers
        = (if origin = some cfg then fullCorsHeaders cfg else emptyCorsHeaders)
    ∧ ((corsMiddleware cfg origin method).isShortCircuit = true ↔ method = "OPTIONS")
    ∧ (method = "OPTIONS" → (corsMiddleware cfg origin method).status? = some 200) := by
  by_cases ho : origin = some cfg <;> by_cases hm : method = "OPTIONS" <;>
    simp [corsMiddleware, CorsStep.headers, CorsStep.isShortCircuit, CorsStep.status?,
      ho, hm, fullCorsHeaders, emptyCorsHeaders]

/-- C7 witness: a preflight from a non-matching origin still gets the
bare 200. -/
theorem C7_cors_witness :
    (corsMiddleware "http://localhost:5173" (some "http://evil.example") "OPTIONS").status?
      = some 200 :=
  (C7_cors_exact_match_and_preflight "http://localhost:5173" (some "http://evil.example")
    "OPTIONS").2.2.2 rfl

/-- C8 counterexample: with environment name `test` — a non-production
configuration — the middleware attaches no stack trace even though the
error carries one, refuting "included exactly when the configuration
is non-production". -/
theorem C8_counterexample_nonproduction_no_stack :
    ¬("test" = "production")
    ∧ (errorHandler "test" (JsError.other "boom" "TRACE")).2.stack = none :=
  ⟨by decide, rfl⟩

/-- C8 amended: the stack trace is included exactly when the
environment name is `development` (decided by configuration, not by
the error value), and in production configuration the response never
contains one. -/
theorem C8_stack_iff_development (nodeEnv : String) (err : JsError) :
    ((errorHandler nodeEnv err).2.stack.isSome = true ↔ nodeEnv = "development")
    ∧ (nodeEnv = "production" → (errorHandler nodeEnv err).2.stack = none) := by
  by_cases h : nodeEnv = "development" <;> cases err <;> simp [errorHandler, h]

/-- C8 witness: in production, no stack trace. -/
theorem C8_stack_iff_development_witness :
    (errorHandler "production" (JsError.other "boom" "TRACE")).2.stack = none :=
  (C8_stack_iff_development "production" (JsError.other "boom" "TRACE")).2 rfl

/-- C9: when the parse throws, `validateRequest` leaves the request —
in particular `req.body` — exactly as it was: the assignment
`req.body = validated` happens only on the success path. -/
theorem C9_failed_parse_preserves_request {β : Type} (parse : β → Except Thrown β)
    (req : Req β) (t : Thrown) (h : parse req.body = Except.error t) :
    (validateRequest parse req).1 = req := by
  simp [validateRequest, h]

/-- C9 witness: an invalid waitlist body is left untouched. -/
theorem C9_failed_parse_preserves_request_witness :
    (validateRequest subscribeParse ⟨⟨some "not-an-email"⟩⟩).1
      = (⟨⟨some "not-an-email"⟩⟩ : Req WaitlistBody) :=
  C9_failed_parse_preserves_request subscribeParse ⟨⟨some "not-an-email"⟩⟩
    ⟨some [⟨"Invalid email format"⟩]⟩ rfl

/-- C10: every value thrown by the parse — with or without a Zod issue
list — is converted into a `ValidationError` (400,
`VALIDATION_ERROR`) built from the first issue's message when one is
present and non-empty, and the fallback `Validation failed` otherwise;
the outcome type has no raw-exception constructor, so no exception
escapes the middleware. -/
theorem C10_catch_always_validation_error {β : Type} (parse : β → Except Thrown β)
    (req : Req β) (t : Thrown) (h : parse req.body = Except.error t) :
    (validateRequest parse req).2 = Outcome.nextError (ValidationError (firstIssueMessage t))
    ∧ (ValidationError (firstIssueMessage t)).statusCode = 400
    ∧ (ValidationError (firstIssueMessage t)).code = "VALIDATION_ERROR"
    ∧ (t.errors = none → firstIssueMessage t = "Validation failed")
    ∧ (∀ i rest, t.errors = some (i :: rest) → ¬(i.message = "") →
        firstIssueMessage t = i.message) := by
  refine ⟨by simp [validateRequest, h], rfl, rfl, ?_, ?_⟩
  · intro hn
    simp [firstIssueMessage, hn]
  · intro i rest hsome hne
    simp [firstIssueMessage, hsome, jsStringOr, hne]

/-- C10 witness: a contact body with every field missing is forwarded
as `ValidationError "Required"`. -/
theorem C10_catch_always_validation_error_witness :
    (validateRequest contactParse ⟨⟨none, none, none⟩⟩).2
      = Outcome.nextError (ValidationError "Required") := by
  have h := C10_catch_always_validation_error contactParse ⟨⟨none, none, none⟩⟩
    ⟨some [⟨"Required"⟩, ⟨"Required"⟩, ⟨"Required"⟩]⟩ rfl
  exact h.1

end Gonagri
